import Mathlib

/-!
Shallow embedding of the Baserow formula subsystem (fields, typing helpers,
recalculation engine and Django-expression compiler) together with proofs of
the behavioural properties stated about it.

The embedding follows the Python sources:
  * `baserow/contrib/database/formula/ast/function.py`
  * `baserow/contrib/database/formula/expression_generator/generator.py`
  * `baserow/contrib/database/formula/handler.py`
  * `baserow/contrib/database/fields/handler.py`
  * `baserow/core/mixins.py` (trash-aware model managers)

Parts of the repository that are referenced but whose sources are not part of
this excerpt (`ast/tree.py`, `types/formula_type.py`, `types/typer.py`,
`core/trash/handler.py`) are modelled from the specification; each such
definition carries a doc comment saying so.
-/

set_option autoImplicit false

namespace Baserow

/-! ## Django expression model

A first-order model of the Django ORM expression objects the compiler emits
(`Value`, `Cast`, `F`, `ExpressionWrapper`, `Subquery`, `JSONObject`,
`FilteredRelation`, `AndExpr`).  Only the structure the proofs inspect is
kept; the database semantics of these objects is out of scope.
-/

/-- A Django model field (column descriptor) such as `DecimalField(...)`. -/
inductive DField where
  | decimalField (maxDigits : Nat) (decimalPlaces : Nat)
  | textField
  | booleanField
  | jsonField
  | singleSelectFK (name : String)
  | plainField (name : String)
  deriving Repr, DecidableEq

/-- A raw value appearing inside a Django `Value(...)` expression. -/
inductive DVal where
  | vNull
  | vInt (n : Int)
  | vStr (s : String)
  | vBool (b : Bool)
  | vDecimal (num : Int) (places : Nat)
  deriving Repr, DecidableEq

/-- The value side of a queryset `.filter(key=value)` keyword argument. -/
inductive FilterVal where
  | boolFilter (b : Bool)
  | outerRef (column : String)
  deriving Repr, DecidableEq

/-- Which model manager a queryset is built from.  `objects` hides trashed
rows, `objects_and_trash` sees every row (`baserow/core/mixins.py`). -/
inductive Manager where
  | objects
  | objectsAndTrash
  deriving Repr, DecidableEq

/-- Django's `FilteredRelation(relation, condition=Q(**filters))`. -/
structure FilteredRelation where
  relationName : String
  condition : List (String × Bool)
  deriving Repr, DecidableEq

/-- A Django ORM expression tree, as produced by the formula compiler. -/
inductive DExpr where
  | value (v : DVal)
  | valueWithOutput (v : DVal) (output : DField)
  | cast (e : DExpr) (output : DField)
  | fRef (name : String)
  | exprWrapper (e : DExpr) (output : Option DField)
  | subquery (manager : Manager) (dbTable : String)
      (annotations : List (String × FilteredRelation))
      (filters : List (String × FilterVal)) (result : DExpr)
  | jsonObject (entries : List (String × DExpr))
  | withFilter (e : DExpr) (cond : DExpr)
  | andExpr (a b : DExpr)
  | funcApp (name : String) (args : List DExpr)
  deriving Repr

/-- The `output_field` attribute of a Django expression, when one was set
explicitly by the generator. -/
def DExpr.outputFieldAttr : DExpr → Option DField
  | .valueWithOutput _ f => some f
  | .cast _ f => some f
  | .exprWrapper _ f => f
  | .withFilter e _ => e.outputFieldAttr
  | _ => none

/-- A Django model class: its database table name and its fields, each with an
optional remote model (for many-to-many / foreign-key fields, as accessed by
`_meta.get_field(name).remote_field.model`). -/
inductive DModel where
  | mk (dbTable : String) (fields : List (String × DField × Option DModel))

def DModel.dbTable : DModel → String
  | .mk t _ => t

def DModel.fields : DModel → List (String × DField × Option DModel)
  | .mk _ fs => fs

/-- `model._meta.get_field(name)`: `none` models the `FieldDoesNotExist`
exception Django raises for an unknown column. -/
def DModel.getField (m : DModel) (name : String) : Option (DField × Option DModel) :=
  (m.fields.find? (fun p => p.fst == name)).map Prod.snd

/-! ## Formula types and the typed expression tree

`ast/tree.py` and `types/formula_type.py` are not part of the excerpt. -/

/-- Modelled from the spec: `BaserowFormulaType` (spec section 4.2 and the
`TypedExpression` data model).  A type is either invalid, carrying a
diagnostic message, or a valid type which declares a placeholder "empty"
value usable when a real aggregate cannot be computed at insert time.
`untyped` stands for the `UnTyped` (`None`) annotation of not-yet-typed
expressions. -/
inductive FormulaType where
  | invalid (message : String)
  | valid (name : String) (placeholder : DExpr)
  | untyped

/-- `isinstance(expression_type, BaserowFormulaInvalidType)`. -/
def FormulaType.isInvalid : FormulaType → Bool
  | .invalid _ => true
  | _ => false

/-- `expression_type.placeholder_empty_value()`; only called on valid types. -/
def FormulaType.placeholderEmptyValue : FormulaType → DExpr
  | .valid _ p => p
  | _ => .value .vNull

/-- A built-in function definition, the closed record the registry holds for
each function: its name, the `aggregate` class attribute of
`One/TwoArgumentBaserowFunction`, the `requires_refresh_after_insert` flag,
and the `to_django_expression` rule the subclass implements. -/
structure FuncDef where
  name : String
  aggregate : Bool
  requiresRefreshAfterInsert : Bool
  toDjango : List DExpr → DExpr

/-- Modelled from the spec: the per-node data of a `TypedExpression`
(`BaserowExpression` in `ast/tree.py`): a resolved type, an `aggregate` flag
and a `many` (array) flag. -/
structure ExprInfo where
  expressionType : FormulaType
  aggregate : Bool := false
  many : Bool := false

/-- Modelled from the spec: the `BaserowExpression` AST of `ast/tree.py`:
literals, `field`/lookup references and function calls, each tagged with an
`ExprInfo`.  Nodes are immutable; the `with*` helpers rebuild the node. -/
inductive BExpr where
  | stringLit (info : ExprInfo) (lit : String)
  | intLit (info : ExprInfo) (lit : Int)
  | decimalLit (info : ExprInfo) (lit : Int) (places : Nat)
  | boolLit (info : ExprInfo) (lit : Bool)
  | fieldRef (info : ExprInfo) (referencedFieldName : String) (targetField : Option String)
  | funcCall (info : ExprInfo) (fdef : FuncDef) (args : List BExpr)

def BExpr.info : BExpr → ExprInfo
  | .stringLit i _ => i
  | .intLit i _ => i
  | .decimalLit i _ _ => i
  | .boolLit i _ => i
  | .fieldRef i _ _ => i
  | .funcCall i _ _ => i

def BExpr.withInfo : BExpr → ExprInfo → BExpr
  | .stringLit _ l, i => .stringLit i l
  | .intLit _ l, i => .intLit i l
  | .decimalLit _ l p, i => .decimalLit i l p
  | .boolLit _ l, i => .boolLit i l
  | .fieldRef _ r t, i => .fieldRef i r t
  | .funcCall _ f a, i => .funcCall i f a

def BExpr.expressionType (e : BExpr) : FormulaType := e.info.expressionType

def BExpr.aggregate (e : BExpr) : Bool := e.info.aggregate

def BExpr.many (e : BExpr) : Bool := e.info.many

/-- `BaserowExpression.with_type`: same node rebuilt with a new type. -/
def BExpr.withType (e : BExpr) (t : FormulaType) : BExpr :=
  e.withInfo { e.info with expressionType := t }

/-- `BaserowExpression.with_invalid_type(error)`. -/
def BExpr.withInvalidType (e : BExpr) (message : String) : BExpr :=
  e.withType (.invalid message)

/-- Mutation `expr.many = False` on an immutable tree: node rebuilt with the
new flag. -/
def BExpr.withMany (e : BExpr) (m : Bool) : BExpr :=
  e.withInfo { e.info with many := m }

/-- `BaserowFieldReference.is_lookup()`: the reference carries a target field
in the looked-up table. -/
def BExpr.isLookupRef : BExpr → Bool
  | .fieldRef _ _ t => t.isSome
  | _ => false

@[simp] theorem withMany_many (e : BExpr) (m : Bool) : (e.withMany m).many = m := by
  cases e <;> rfl

@[simp] theorem withMany_expressionType (e : BExpr) (m : Bool) :
    (e.withMany m).expressionType = e.expressionType := by
  cases e <;> rfl

/-! ## `ast/function.py`: the one and two argument typing helpers -/

/-- `OneArgumentBaserowFunction.type_function_given_valid_args`
(`ast/function.py`, lines 200-214).  `aggregateFlag` is the subclass's
`aggregate` class attribute and `typeFunction` its `type_function` rule.
NOTE the source evaluates `func_call.with_invalid_type(...)` on the
aggregate check but does not return (or otherwise use) its result; the
expression built from `type_function` is returned regardless.  The dead
statement is kept here as a discarded binding. -/
def oneArgTypeFunctionGivenValidArgs (aggregateFlag : Bool)
    (typeFunction : BExpr → BExpr → BExpr)
    (args : List BExpr) (funcCall : BExpr) : BExpr :=
  match args with
  | arg :: _ =>
    let _ := if aggregateFlag && !arg.many then
        funcCall.withInvalidType "first argument must be an aggregate formula"
      else funcCall
    let expr := typeFunction funcCall arg
    if aggregateFlag then expr.withMany false else expr
  | [] => funcCall

/-- `TwoArgumentBaserowFunction.type_function_given_valid_args`
(`ast/function.py`, lines 362-375).  As in the one-argument case the
`with_invalid_type` result is built and discarded by the source. -/
def twoArgTypeFunctionGivenValidArgs (aggregateFlag : Bool)
    (typeFunction : BExpr → BExpr → BExpr → BExpr)
    (args : List BExpr) (funcCall : BExpr) : BExpr :=
  match args with
  | arg1 :: arg2 :: _ =>
    let _ := if aggregateFlag && !arg1.many && !arg2.many then
        funcCall.withInvalidType "one of the two arguments must be an aggregate formula"
      else funcCall
    let expr := typeFunction funcCall arg1 arg2
    if aggregateFlag then expr.withMany false else expr
  | _ => funcCall

/-! ## `expression_generator/generator.py`: the compiler to Django expressions -/

/-- The mutable per-visit state of
`BaserowExpressionToDjangoExpressionGenerator`: `pre_annotations` (a dict),
`aggregate_filters` (a list) and `join_ids` (a set, modelled as a
duplicate-free list). -/
structure GenState where
  preAnnotations : List (String × FilteredRelation) := []
  aggregateFilters : List DExpr := []
  joinIds : List (String × String) := []

/-- Python dict assignment `d[key] = value`: replaces an existing binding,
otherwise appends. -/
def dictSet {α : Type} (d : List (String × α)) (key : String) (value : α) :
    List (String × α) :=
  if d.any (fun p => p.fst == key) then
    d.map (fun p => if p.fst == key then (key, value) else p)
  else d ++ [(key, value)]

/-- Python `set.add` on the `join_ids` set. -/
def addJoinId (st : GenState) (j : String × String) : GenState :=
  { st with joinIds := if j ∈ st.joinIds then st.joinIds else st.joinIds ++ [j] }

/-- `aggregate_wrapper` (`ast/function.py`, lines 239-265): combines any
pending aggregate filters onto the aggregate expression, then wraps it in a
`Subquery` over `model.objects_and_trash` annotated with the pending filtered
relations and filtered on `id=OuterRef("id")` plus a not-null filter per
annotation (forcing inner joins), finally clearing all pending state. -/
def aggregateWrapper (aggregateFuncExpr : DExpr) (modelDbTable : String)
    (st : GenState) : DExpr × GenState :=
  let aggregateFuncExpr :=
    if st.aggregateFilters.length > 0 then
      DExpr.withFilter aggregateFuncExpr
        (st.aggregateFilters.foldl DExpr.andExpr (DExpr.value (.vBool true)))
    else aggregateFuncExpr
  let notNullFiltersForInnerJoin :=
    st.preAnnotations.map (fun p => (p.fst ++ "__isnull", FilterVal.boolFilter false))
  (DExpr.exprWrapper
      (DExpr.subquery .objectsAndTrash modelDbTable st.preAnnotations
        (("id", FilterVal.outerRef "id") :: notNullFiltersForInnerJoin)
        aggregateFuncExpr)
      aggregateFuncExpr.outputFieldAttr,
   { preAnnotations := [], aggregateFilters := [], joinIds := [] })

/-- `One/TwoArgumentBaserowFunction.to_django_expression_given_args`
(`ast/function.py`, lines 216-231 and 377-392): apply the subclass's
`to_django_expression` rule and, for aggregate functions, wrap the result
with `aggregate_wrapper`.  (`Zero/ThreeArgumentBaserowFunction` never wrap.) -/
def FuncDef.toDjangoExpressionGivenArgs (fdef : FuncDef) (args : List DExpr)
    (modelDbTable : String) (st : GenState) : DExpr × GenState :=
  let djangoExpr := fdef.toDjango args
  if fdef.aggregate then aggregateWrapper djangoExpr modelDbTable st
  else (djangoExpr, st)

/-- A row (model instance) with its attribute values, as read by `getattr`. -/
inductive AttrVal where
  | nullVal
  | intVal (n : Int)
  | strVal (s : String)
  | boolVal (b : Bool)
  | selectVal (id : Int) (value : String) (color : String)
  deriving Repr, DecidableEq

structure RowInstance where
  attrs : List (String × AttrVal)
  deriving Repr, DecidableEq

def AttrVal.toDVal : AttrVal → DVal
  | .nullVal => .vNull
  | .intVal n => .vInt n
  | .strVal s => .vStr s
  | .boolVal b => .vBool b
  | .selectVal _ v _ => .vStr v

/-- The generator's constructor arguments: the model and the optional model
instance being compiled for. -/
structure Gen where
  model : DModel
  modelInstance : Option RowInstance

/-- `_setup_annotations_and_joins` (`generator.py`, lines 257-275): records
the join, builds the unique annotation name, and installs a
`FilteredRelation` requiring the joined rows to be non-trashed and non-null
(plus non-trashed middle rows when joining through a middle m2m relation). -/
def setupAnnotationsAndJoins (joinModel : DModel) (joinPath : String)
    (middleLink : Option String) (st : GenState) : String × GenState :=
  let st := addJoinId st (joinPath, joinModel.dbTable)
  let uniqueAnnotationPathName := ("not_trashed_" ++ joinPath).replace "__" "_"
  let relationFilters :=
    [(joinPath ++ "__trashed", false), (joinPath ++ "__isnull", false)] ++
      (match middleLink with
       | some ml => [(ml ++ "__trashed", false)]
       | none => [])
  let st := { st with
    preAnnotations := dictSet st.preAnnotations uniqueAnnotationPathName
      ⟨joinPath, relationFilters⟩ }
  (uniqueAnnotationPathName, st)

/-- `_wrap_in_subquery` (`generator.py`, lines 303-311). -/
def wrapInSubquery (g : Gen) (singleSelectExtractor : DExpr) : DExpr :=
  .exprWrapper
    (.subquery .objects g.model.dbTable [] [("id", FilterVal.outerRef "id")]
      singleSelectExtractor)
    (some .jsonField)

/-- `_make_reference_to_model_field` (`generator.py`, lines 277-301). -/
def makeReferenceToModelField (g : Gen) (dbColumn : String) (modelField : DField)
    (alreadyInSubquery : Bool) : DExpr :=
  match modelField with
  | .singleSelectFK _ =>
    let singleSelectExtractor := DExpr.exprWrapper
      (.jsonObject
        [("value", .fRef (dbColumn ++ "__value")),
         ("id", .fRef (dbColumn ++ "__id")),
         ("color", .fRef (dbColumn ++ "__color"))])
      (some modelField)
    if alreadyInSubquery then singleSelectExtractor
    else wrapInSubquery g singleSelectExtractor
  | mf => .exprWrapper (.fRef dbColumn) (some mf)

/-- Python's `s.split("__")`: splits at every non-overlapping occurrence of
the two-underscore separator, scanning left to right. -/
def pySplitDunderAux : List Char → List Char → List String
  | [], acc => [String.mk acc.reverse]
  | '_' :: '_' :: rest, acc => String.mk acc.reverse :: pySplitDunderAux rest []
  | c :: rest, acc => pySplitDunderAux rest (c :: acc)

def pySplitDunder (s : String) : List String :=
  pySplitDunderAux s.toList []

/-- `_get_remote_model` (`generator.py`, lines 252-254); `none` models the
exception raised when the field or its remote model is missing. -/
def getRemoteModel (m2mFieldName : String) (mode : DModel) : Option DModel :=
  match mode.getField m2mFieldName with
  | some (_, some remote) => some remote
  | _ => none

/-- `_setup_extra_joins_to_linked_lookup_table` (`generator.py`, lines
223-250): a lookup of a link row field needs two joins; the first into the
lookup table, the second from the lookup table into the linked table. -/
def setupExtraJoinsToLinkedLookupTable (lookupTableModel : DModel)
    (m2mToLookupTable pathToLookupFromLookupTable : String) (st : GenState) :
    Option ((DField × String) × GenState) :=
  let splitRef := pySplitDunder pathToLookupFromLookupTable
  let linkFieldInLookupTable := splitRef.headD ""
  let pathToLinkTable := m2mToLookupTable ++ "__" ++ linkFieldInLookupTable
  match getRemoteModel linkFieldInLookupTable lookupTableModel with
  | none => none
  | some linkTableModel =>
    let st := addJoinId st (m2mToLookupTable, lookupTableModel.dbTable)
    let (filteredJoinToLinkTable, st) :=
      setupAnnotationsAndJoins linkTableModel pathToLinkTable
        (some m2mToLookupTable) st
    let primaryFieldInRelatedTable := (splitRef.drop 1).headD ""
    match linkTableModel.getField primaryFieldInRelatedTable with
    | none => none
    | some (modelField, _) =>
      some ((modelField, filteredJoinToLinkTable ++ "__" ++ primaryFieldInRelatedTable), st)

/-- `_setup_lookup_expression` (`generator.py`, lines 191-220).  The Python
test `"__" in path` is modelled as the split producing more than one part. -/
def setupLookupExpression (g : Gen) (m2mToLookupTable : String)
    (pathToLookupFromLookupTable : String) (st : GenState) :
    Option (DExpr × GenState) :=
  match getRemoteModel m2mToLookupTable g.model with
  | none => none
  | some lookupTableModel =>
    let lookupOfLinkField :=
      (pySplitDunder pathToLookupFromLookupTable).length > 1
    if lookupOfLinkField then
      match setupExtraJoinsToLinkedLookupTable lookupTableModel
          m2mToLookupTable pathToLookupFromLookupTable st with
      | none => none
      | some ((modelField, filteredJoinToLookupField), st) =>
        some (makeReferenceToModelField g filteredJoinToLookupField modelField true, st)
    else
      let (filteredJoinToLookupTable, st) :=
        setupAnnotationsAndJoins lookupTableModel m2mToLookupTable none st
      match lookupTableModel.getField pathToLookupFromLookupTable with
      | none => none
      | some (modelField, _) =>
        some (makeReferenceToModelField g
          (filteredJoinToLookupTable ++ "__" ++ pathToLookupFromLookupTable)
          modelField true, st)

/-- `_generate_insert_expression` (`generator.py`, lines 168-189). -/
def generateInsertExpression (g : Gen) (inst : RowInstance) (dbColumn : String) :
    Option DExpr :=
  match g.model.getField dbColumn with
  | none => none
  | some (modelField, _) =>
    match (inst.attrs.find? (fun p => p.fst == dbColumn)).map Prod.snd with
    | none => none
    | some instanceAttrValue =>
      match modelField with
      | .singleSelectFK _ =>
        let value : DExpr :=
          match instanceAttrValue with
          | .selectVal i v c =>
            .jsonObject
              [("value", .value (.vStr v)), ("id", .value (.vInt i)),
               ("color", .value (.vStr c))]
          | _ => .value instanceAttrValue.toDVal
        some (.cast value .jsonField)
      | mf => some (.cast (.value instanceAttrValue.toDVal) mf)

/-- `visit_field_reference` (`generator.py`, lines 150-166).  `none` models a
raised exception (`UnknownFieldReference` or a Django field lookup error). -/
def visitFieldReference (g : Gen) (referencedFieldName : String)
    (targetField : Option String) (st : GenState) : Option (DExpr × GenState) :=
  let dbColumn := referencedFieldName
  let generatingUpdateExpression := g.modelInstance.isNone
  match targetField with
  | some target => setupLookupExpression g dbColumn target st
  | none =>
    if generatingUpdateExpression then
      match g.model.getField dbColumn with
      | none => none
      | some (modelField, _) =>
        some (makeReferenceToModelField g dbColumn modelField false, st)
    else
      match g.modelInstance with
      | none => none
      | some inst =>
        if (inst.attrs.find? (fun p => p.fst == dbColumn)).isNone then none
        else
          match generateInsertExpression g inst dbColumn with
          | none => none
          | some e => some (e, st)

mutual

/-- The `BaserowExpressionToDjangoExpressionGenerator` visitor
(`generator.py`, lines 128-352), with the per-visit state passed explicitly.
`none` models a raised exception. -/
def genVisit (g : Gen) : BExpr → GenState → Option (DExpr × GenState)
  | .stringLit _ s, st =>
    some (.cast (.valueWithOutput (.vStr s) .textField) .textField, st)
  | .intLit _ n, st =>
    some (.valueWithOutput (.vInt n) (.decimalField 50 0), st)
  | .decimalLit _ n places, st =>
    some (.valueWithOutput (.vDecimal n places) (.decimalField 50 places), st)
  | .boolLit _ b, st => some (.valueWithOutput (.vBool b) .booleanField, st)
  | .fieldRef _ name target, st => visitFieldReference g name target st
  | .funcCall _ fdef args, st =>
    match genVisitArgs g args st with
    | none => none
    | some (dargs, st2) =>
      some (fdef.toDjangoExpressionGivenArgs dargs g.model.dbTable st2)

/-- `visit_function_call`'s left-to-right visit of the argument list. -/
def genVisitArgs (g : Gen) : List BExpr → GenState → Option (List DExpr × GenState)
  | [], st => some ([], st)
  | e :: rest, st =>
    match genVisit g e st with
    | none => none
    | some (d, st2) =>
      match genVisitArgs g rest st2 with
      | none => none
      | some (ds, st3) => some (d :: ds, st3)

end

/-- `_baserow_expression_to_django_expression` (`generator.py`, lines
66-117): invalid-typed expressions compile to `Value(None)`; aggregate
expressions compiled for an insert compile to the type's placeholder empty
value; otherwise the generator visitor runs, any exception being handled and
converted to `Value(None)`. -/
def baserowExpressionToDjangoExpression (baserowExpression : BExpr)
    (model : DModel) (modelInstance : Option RowInstance) (insert : Bool) :
    DExpr :=
  if baserowExpression.expressionType.isInvalid then .value .vNull
  else if baserowExpression.aggregate && modelInstance.isSome && insert then
    baserowExpression.expressionType.placeholderEmptyValue
  else
    match genVisit ⟨model, modelInstance⟩ baserowExpression {} with
    | some (d, _) => d
    | none => .value .vNull

/-- `baserow_expression_to_update_django_expression` (`generator.py`, 41-45). -/
def baserowExpressionToUpdateDjangoExpression (e : BExpr) (model : DModel) : DExpr :=
  baserowExpressionToDjangoExpression e model none false

/-- `baserow_expression_to_single_row_update_django_expression`
(`generator.py`, 48-54). -/
def baserowExpressionToSingleRowUpdateDjangoExpression (e : BExpr)
    (model : DModel) (modelInstance : RowInstance) : DExpr :=
  baserowExpressionToDjangoExpression e model (some modelInstance) false

/-- `baserow_expression_to_insert_django_expression` (`generator.py`, 57-63). -/
def baserowExpressionToInsertDjangoExpression (e : BExpr) (model : DModel)
    (modelInstance : RowInstance) : DExpr :=
  baserowExpressionToDjangoExpression e model (some modelInstance) true

/-! ## `formula/handler.py`: cached property recalculation -/

/-- `FormulaHandler.BASEROW_FORMULA_VERSION` (`formula/handler.py`, line 99). -/
def BASEROW_FORMULA_VERSION : Nat := 2

mutual

/-- Modelled from the spec: `str(expression)` on a `BaserowExpression`
(`ast/tree.py` is not in the excerpt): re-serializes the AST back to formula
text. -/
def BExpr.toFormulaString : BExpr → String
  | .stringLit _ s => s
  | .intLit _ n => toString n
  | .decimalLit _ n places => toString n ++ "e-" ++ toString places
  | .boolLit _ b => toString b
  | .fieldRef _ name _ => "field(" ++ name ++ ")"
  | .funcCall _ fdef args =>
    fdef.name ++ "(" ++ String.intercalate "," (toFormulaStringList args) ++ ")"

def toFormulaStringList : List BExpr → List String
  | [] => []
  | e :: rest => e.toFormulaString :: toFormulaStringList rest

end

mutual

/-- The `FunctionsUsedVisitor` check of `_expression_requires_refresh_after_insert`
(`formula/handler.py`, lines 87-90): does any function used in the expression
have `requires_refresh_after_insert`?  (`types/visitors.py` only collects the
set of used function definitions; the `any` is from the handler.) -/
def anyFunctionUsedRequiresRefresh : BExpr → Bool
  | .funcCall _ fdef args =>
    fdef.requiresRefreshAfterInsert || anyFunctionUsedRequiresRefreshList args
  | _ => false

def anyFunctionUsedRequiresRefreshList : List BExpr → Bool
  | [] => false
  | e :: rest =>
    anyFunctionUsedRequiresRefresh e || anyFunctionUsedRequiresRefreshList rest

end

/-- `_expression_requires_refresh_after_insert` (`formula/handler.py`, lines
67-90): aggregate expressions always require a refresh; otherwise any used
function flagged `requires_refresh_after_insert` does. -/
def expressionRequiresRefreshAfterInsert (expression : BExpr) : Bool :=
  if expression.aggregate then true
  else anyFunctionUsedRequiresRefresh expression

/-- Modelled from the spec: `literal("")` of `types/formula_types.py` (not in
the excerpt): an empty string literal expression with the text type. -/
def emptyStringLiteral : BExpr :=
  .stringLit { expressionType := .valid "text" (.value (.vStr "")) } ""

/-- The attributes of a `FormulaField` row that
`recalculate_formula_field_cached_properties` writes. -/
structure FormulaFieldProps where
  internalFormula : String := ""
  version : Nat := 0
  formulaTypeName : String := ""
  errorMessage : Option String := none
  requiresRefreshAfterInsert : Bool := false
  deriving Repr, DecidableEq

/-- Modelled from the spec: `BaserowFormulaType.persist_onto_formula_field`
(`types/formula_type.py` is not in the excerpt): stores the resolved type
onto the field row; an invalid type stores its diagnostic message as the
field's stored error string. -/
def FormulaType.persistOntoFormulaField (t : FormulaType)
    (f : FormulaFieldProps) : FormulaFieldProps :=
  match t with
  | .invalid msg => { f with formulaTypeName := "invalid", errorMessage := some msg }
  | .valid n _ => { f with formulaTypeName := n, errorMessage := none }
  | .untyped => f

/-- `FormulaHandler.recalculate_formula_field_cached_properties`
(`formula/handler.py`, lines 329-360).  `typingResult` stands for the outcome
of `calculate_typed_expression` (`types/typer.py`, not in the excerpt):
`Except.error msg` models a raised `BaserowFormulaException` with message
`msg`.  The function itself is total: a formula error is caught and converted
into an invalid-typed empty literal, never propagated. -/
def recalculateFormulaFieldCachedProperties
    (typingResult : Except String BExpr) (formulaField : FormulaFieldProps) :
    FormulaFieldProps × BExpr :=
  let expression :=
    match typingResult with
    | .error e => emptyStringLiteral.withInvalidType e
    | .ok expr => expr
  let expressionType := expression.expressionType
  let internalFormula := expression.toFormulaString
  let refreshAfterInsert := expressionRequiresRefreshAfterInsert expression
  let formulaField := { formulaField with
    internalFormula := internalFormula,
    version := BASEROW_FORMULA_VERSION }
  let formulaField := expressionType.persistOntoFormulaField formulaField
  let formulaField := { formulaField with
    requiresRefreshAfterInsert := refreshAfterInsert }
  (formulaField, expression)

/-! ## `formula/handler.py`: the global recalculation pass

`_recalculate_depth_first` recurses through the stored dependency graph;
since the graph may be cyclic the embedding is fuel-indexed, `none` meaning
the recursion did not return within the given fuel (in Python: unbounded
recursion).  The `entered` trace records every call entry and `saved` every
`f.save(...)` call, so theorems can speak about the work performed. -/

/-- A stored field row as seen by the recalculation pass: its id, whether it
is a `FormulaField`, its formula version tag and its direct dependencies
(`f.field_dependencies`).  Rows of the `objects` manager only (trashed rows
are hidden by `NoTrashManager`, `core/mixins.py`). -/
structure GField where
  id : Nat
  isFormula : Bool
  version : Nat
  deps : List Nat
  deriving Repr, DecidableEq

structure FDatabase where
  fields : List GField
  deriving Repr, DecidableEq

def FDatabase.lookup (db : FDatabase) (fid : Nat) : Option GField :=
  db.fields.find? (fun f => f.id == fid)

def FDatabase.depsOf (db : FDatabase) (fid : Nat) : List Nat :=
  match db.lookup fid with
  | some f => f.deps
  | none => []

/-- The state threaded through `_recalculate_depth_first`:
`already` is the `already_recalculated` set, `saved` logs `f.save` calls and
`entered` logs every entry into the function. -/
structure RecState where
  already : List Nat := []
  saved : List Nat := []
  entered : List Nat := []
  deriving Repr, DecidableEq

/-- `_recalculate_depth_first` (`formula/handler.py`, lines 45-64), fuel
indexed (`none` means the recursion did not return within the fuel — in
Python, unbounded recursion).  A field already in `already_recalculated`
returns `True` at once; otherwise the dependencies are processed first by the
loop `recalculated_dependant = recalculated_dependant or
_recalculate_depth_first(dep, ...)` — whose Python `or` short-circuits: once
the accumulator is `True` the remaining dependencies are not recursed into —
and only afterwards, and only when the field is a `FormulaField` that was
actually saved, is the field added to the set. -/
def recalculateDepthFirst (db : FDatabase) :
    Nat → Nat → RecState → Option Bool × RecState
  | 0, _, st => (none, st)
  | fuel + 1, fid, st =>
    let st := { st with entered := st.entered ++ [fid] }
    if fid ∈ st.already then (some true, st)
    else
      match (db.depsOf fid).foldl
          (fun (p : Option Bool × RecState) dep =>
            match p with
            | (none, st) => (none, st)
            | (some true, st) => (some true, st)
            | (some acc, st) =>
              match recalculateDepthFirst db fuel dep st with
              | (none, st2) => (none, st2)
              | (some b, st2) => (some (acc || b), st2))
          (some false, st) with
      | (none, st) => (none, st)
      | (some recalculatedDependant, st) =>
        match db.lookup fid with
        | some f =>
          if f.isFormula &&
              (decide (f.version ≠ BASEROW_FORMULA_VERSION) || recalculatedDependant) then
            (some true,
             { st with
               saved := st.saved ++ [fid],
               already := st.already ++ [fid] })
          else (some recalculatedDependant, st)
        | none => (some recalculatedDependant, st)

/-- `formulas_need_update` inside
`FormulaHandler.recalculate_formulas_according_to_version`
(`formula/handler.py`, lines 391-394):
`FormulaField.objects.filter(~Q(version=BASEROW_FORMULA_VERSION)).exists()`. -/
def formulasNeedUpdate (db : FDatabase) : Bool :=
  db.fields.any (fun f => f.isFormula && f.version ≠ BASEROW_FORMULA_VERSION)

/-- The `for field in FormulaField.objects.all()` loop of the global pass. -/
def recalculateAllFormulaFields (db : FDatabase) (fuel : Nat) :
    List Nat → RecState → Option RecState
  | [], st => some st
  | fid :: rest, st =>
    match recalculateDepthFirst db fuel fid st with
    | (none, st2) =>
      let _ := st2
      none
    | (some _, st2) => recalculateAllFormulaFields db fuel rest st2

/-- The outcome of one run of the global recalculation entry point. -/
structure RunResult where
  db : FDatabase
  savedCount : Nat
  neededUpdate : Bool
  deriving Repr, DecidableEq

/-- `FormulaHandler.recalculate_formulas_according_to_version`
(`formula/handler.py`, lines 377-416), single-process (the lock re-check
trivially passes).  When formulas are out of date every formula field is run
through `_recalculate_depth_first` and then
`FormulaField.objects.update(version=BASEROW_FORMULA_VERSION)` stamps every
(non-trashed) formula field with the current version; otherwise nothing is
touched.  `none` models non-termination of the depth-first recursion. -/
def recalculateFormulasAccordingToVersion (db : FDatabase) (fuel : Nat) :
    Option RunResult :=
  if formulasNeedUpdate db then
    -- Another process might have gotten the lock first; single-process the
    -- re-check after acquiring the lock gives the same answer.
    if formulasNeedUpdate db then
      match recalculateAllFormulaFields db fuel
          ((db.fields.filter (fun f => f.isFormula)).map (fun f => f.id)) {} with
      | none => none
      | some st =>
        let db2 : FDatabase :=
          ⟨db.fields.map (fun f =>
            if f.isFormula then { f with version := BASEROW_FORMULA_VERSION } else f)⟩
        some ⟨db2, st.saved.length, true⟩
    else some ⟨db, 0, false⟩
  else some ⟨db, 0, false⟩

/-! ## `fields/handler.py`: field retrieval and creation -/

/-- Trash state of the ancestors of a field: its table, the table's database
and the database's application.  (Only the `trashed` flags matter here.) -/
structure TrashAncestry where
  tableTrashed : Bool
  databaseTrashed : Bool
  applicationTrashed : Bool
  deriving Repr, DecidableEq

/-- Modelled from the spec:
`TrashHandler.item_has_a_trashed_parent(item, check_item_also=True)`
(`core/trash/handler.py` is not in the excerpt): walks the parent chain of
the given table checking the `trashed` flag, the table itself included when
`check_item_also` is set. -/
def itemHasATrashedParent (t : TrashAncestry) (checkItemAlso : Bool) : Bool :=
  (checkItemAlso && t.tableTrashed) || t.databaseTrashed || t.applicationTrashed

/-- A stored field row as seen by `FieldHandler.get_field`. -/
structure FieldRow where
  id : Nat
  trashed : Bool
  ancestry : TrashAncestry
  deriving Repr, DecidableEq

/-- The message of the `FieldDoesNotExist` raised by `get_field` — identical
in both raise sites. -/
def fieldDoesNotExistMessage (fieldId : Nat) : String :=
  "The field with id " ++ toString fieldId ++ " does not exist."

inductive GetFieldError where
  | fieldDoesNotExist (msg : String)
  deriving Repr, DecidableEq

/-- `FieldHandler.get_field` (`fields/handler.py`, lines 130-170) with the
default `field_model`/`base_queryset`: the queryset is `Field.objects`, whose
`NoTrashManager` (`core/mixins.py`) hides trashed rows, so a trashed field
raises `FieldDoesNotExist` exactly like a missing id; a found field whose
table or any ancestor of it is trashed raises the same error with the same
message. -/
def getField (fields : List FieldRow) (fieldId : Nat) :
    Except GetFieldError FieldRow :=
  match (fields.filter (fun f => !f.trashed)).find? (fun f => f.id == fieldId) with
  | none => .error (.fieldDoesNotExist (fieldDoesNotExistMessage fieldId))
  | some field =>
    if itemHasATrashedParent field.ancestry true then
      .error (.fieldDoesNotExist (fieldDoesNotExistMessage fieldId))
    else .ok field

/-- A stored field row as seen by `FieldHandler.create_field`. -/
structure TFieldRow where
  id : Nat
  tableId : Nat
  name : String
  primary : Bool
  trashed : Bool := false
  deriving Repr, DecidableEq

inductive CreateFieldError where
  | userNotInGroup
  | primaryFieldAlreadyExists
  | unknownFieldType
  | maxFieldLimitExceeded
  | invalidBaserowFieldName
  | maxFieldNameLengthExceeded
  | fieldWithSameNameAlreadyExists
  | reservedBaserowFieldName
  deriving Repr, DecidableEq

/-- The environment `create_field` consults: the registry of field type
names, `settings.MAX_FIELD_LIMIT`, `Field.get_max_name_length()` and
`RESERVED_BASEROW_FIELD_NAMES` (the latter two live in modules outside the
excerpt and are left abstract). -/
structure CreateFieldEnv where
  typeNames : List String
  maxFieldLimit : Nat
  maxNameLength : Nat
  reservedNames : List String

/-- `_validate_field_name` (`fields/handler.py`, lines 76-123) for a create
(no existing field, `raise_if_name_missing=True`). -/
def validateFieldName (env : CreateFieldEnv) (rows : List TFieldRow)
    (tableId : Nat) (name : Option String) : Option CreateFieldError :=
  match name with
  | none => some .invalidBaserowFieldName
  | some n =>
    if n.length > env.maxNameLength then some .maxFieldNameLengthExceeded
    else if n.trim == "" then some .invalidBaserowFieldName
    else if rows.any (fun r => !r.trashed && r.tableId == tableId && r.name == n) then
      some .fieldWithSameNameAlreadyExists
    else if n ∈ env.reservedNames then some .reservedBaserowFieldName
    else none

/-- `FieldHandler.create_field` (`fields/handler.py`, lines 184-296), up to
the point the new row is persisted: the group membership check, the
primary-uniqueness check (against `Field.objects`, so non-trashed rows only),
the field type lookup, the `MAX_FIELD_LIMIT` check, the name validation and
finally the insertion of the new row.  An error leaves the stored rows
untouched. -/
def createField (env : CreateFieldEnv) (rows : List TFieldRow)
    (userInGroup : Bool) (tableId : Nat) (typeName : String) (primary : Bool)
    (name : Option String) (newId : Nat) :
    Except CreateFieldError (List TFieldRow × TFieldRow) :=
  if !userInGroup then .error .userNotInGroup
  -- Because only one primary field per table can exist we have to check if
  -- one already exists.  If so the field cannot be created.
  else if primary && rows.any (fun r => !r.trashed && r.tableId == tableId && r.primary) then
    .error .primaryFieldAlreadyExists
  else if typeName ∉ env.typeNames then .error .unknownFieldType
  else if (rows.filter (fun r => !r.trashed && r.tableId == tableId)).length + 1
      > env.maxFieldLimit then
    .error .maxFieldLimitExceeded
  else
    match validateFieldName env rows tableId name with
    | some e => .error e
    | none =>
      let newRow : TFieldRow :=
        ⟨newId, tableId, name.getD "", primary, false⟩
      .ok (rows ++ [newRow], newRow)

/-! ## Concrete sample objects used by witnesses and counterexamples -/

/-- A sample valid formula type. -/
def numberType : FormulaType := .valid "number" (.value .vNull)

/-- A sample aggregate-flagged function definition (e.g. `sum`). -/
def sampleAggDef : FuncDef :=
  ⟨"sum", true, false, fun args => .funcApp "Sum" args⟩

/-- A sample `type_function` rule for a one-argument function: type the call
with the number type (`func_call.with_valid_type(...)`). -/
def sampleTypeFn : BExpr → BExpr → BExpr :=
  fun funcCall _ => funcCall.withType numberType

/-- A sample `type_function` rule for a two-argument function. -/
def sampleTypeFn2 : BExpr → BExpr → BExpr → BExpr :=
  fun funcCall _ _ => funcCall.withType numberType

/-- A scalar (non-array, `many = false`) integer argument. -/
def scalarIntArg : BExpr := .intLit { expressionType := numberType } 1

/-- An untyped call to the sample aggregate function with the scalar arg. -/
def untypedSumCall : BExpr :=
  .funcCall { expressionType := .untyped } sampleAggDef [scalarIntArg]

/-! ## Claims -/

/-- Claim C1: the claim states that an aggregate-flagged one- or two-argument
function applied to only non-array arguments fails typing: the result of
`type_function_given_valid_args` should be an invalid-type expression whose
message contains "must be an aggregate formula".  The source builds exactly
that invalid expression but discards it (`func_call.with_invalid_type(...)`
without `return`, `ast/function.py` lines 206-209 and 367-370), so the call
still receives the valid type produced by `type_function` — evaluated here at
the failing input: a scalar (`many = false`) argument to an aggregate
function. -/
theorem aggregate_misuse_not_rejected :
    (oneArgTypeFunctionGivenValidArgs true sampleTypeFn [scalarIntArg]
        untypedSumCall).expressionType.isInvalid = false
    ∧ oneArgTypeFunctionGivenValidArgs true sampleTypeFn [scalarIntArg]
        untypedSumCall
      = (sampleTypeFn untypedSumCall scalarIntArg).withMany false
    ∧ scalarIntArg.many = false
    ∧ (twoArgTypeFunctionGivenValidArgs true sampleTypeFn2
        [scalarIntArg, scalarIntArg] untypedSumCall).expressionType.isInvalid
      = false :=
  ⟨rfl, rfl, rfl, rfl⟩

/-- Claim C5: whenever typing a single formula field raises a formula error,
`recalculate_formula_field_cached_properties` catches it and replaces the
expression with an invalid-typed empty literal carrying the error's message
as the diagnostic string.  The embedded function is total — the error never
propagates, so the recalculation pass continues with the next field — and the
field ends up with the invalid type name, the stored diagnostic, the current
formula version and an empty internal formula. -/
theorem typing_error_caught_as_invalid_literal
    (formulaField : FormulaFieldProps) (msg : String) :
    recalculateFormulaFieldCachedProperties (.error msg) formulaField
      = ({ internalFormula := "", version := BASEROW_FORMULA_VERSION,
           formulaTypeName := "invalid", errorMessage := some msg,
           requiresRefreshAfterInsert := false },
         emptyStringLiteral.withInvalidType msg) :=
  rfl

/-- Claim C6: for every aggregate-flagged one- or two-argument function call
that passed the per-argument type check (so the argument list has the arity
the helper guarantees), the expression returned by
`type_function_given_valid_args` has `many = false`: the result of an
aggregate function is always scalar, whatever the `type_function` rule
returned. -/
theorem aggregate_result_never_many
    (typeFn1 : BExpr → BExpr → BExpr) (typeFn2 : BExpr → BExpr → BExpr → BExpr)
    (args1 args2 : List BExpr) (funcCall1 funcCall2 : BExpr)
    (h1 : args1.length = 1) (h2 : args2.length = 2) :
    (oneArgTypeFunctionGivenValidArgs true typeFn1 args1 funcCall1).many = false
    ∧ (twoArgTypeFunctionGivenValidArgs true typeFn2 args2 funcCall2).many
      = false := by
  constructor
  · match args1, h1 with
    | [a], _ => simp [oneArgTypeFunctionGivenValidArgs]
  · match args2, h2 with
    | [a, b], _ => simp [twoArgTypeFunctionGivenValidArgs]

/-- Witness for C6 at a concrete aggregate call with one and two scalar
arguments. -/
theorem aggregate_result_never_many_witness :
    (oneArgTypeFunctionGivenValidArgs true sampleTypeFn [scalarIntArg]
        untypedSumCall).many = false
    ∧ (twoArgTypeFunctionGivenValidArgs true sampleTypeFn2
        [scalarIntArg, scalarIntArg] untypedSumCall).many = false :=
  aggregate_result_never_many sampleTypeFn sampleTypeFn2 [scalarIntArg]
    [scalarIntArg, scalarIntArg] untypedSumCall untypedSumCall rfl rfl

/-- Claim C7: every integer literal compiles (`visit_int_literal`) to a
`Value` carrying a `DecimalField` output type with exactly 50 maximum digits
and 0 decimal places, for every literal value, visit state and model. -/
theorem int_literal_compiles_to_decimal_50_0
    (info : ExprInfo) (n : Int) (g : Gen) (st : GenState) :
    genVisit g (.intLit info n) st
      = some (.valueWithOutput (.vInt n) (.decimalField 50 0), st) :=
  rfl

/-- Two out-of-date formula fields whose stored dependency graph is a
two-cycle (1 depends on 2 and 2 depends on 1). -/
def cyclicDb : FDatabase := ⟨[⟨1, true, 1, [2]⟩, ⟨2, true, 1, [1]⟩]⟩

/-- Claim C2 counterexample: the claim states that a formula field is added
to the already-recalculated set *before* the pass recurses into its
dependencies, so that a revisit of a field currently being processed returns
immediately.  On the two-cycle, field 1 is re-entered and re-recursed on
every alternation (five entries within fuel 10), the already-recalculated set
never receives any field, and the recursion does not return — `none` marks
fuel exhaustion, i.e. unbounded recursion in the source. -/
theorem depth_first_marks_after_recursion_counterexample :
    (recalculateDepthFirst cyclicDb 10 1 {}).1 = none
    ∧ (recalculateDepthFirst cyclicDb 10 1 {}).2.entered
      = [1, 2, 1, 2, 1, 2, 1, 2, 1, 2]
    ∧ (recalculateDepthFirst cyclicDb 10 1 {}).2.already = [] := by
  decide

/-- Claim C2 amended: a field already present in the already-recalculated set
returns `True` immediately, without recursing into dependencies and without
saving; but a field is added to that set only *after* the pass has recursed
into its dependencies, and only when the field was actually saved, so a
revisit of a field still being processed recurses again — termination relies
on the stored dependency graph being acyclic. -/
theorem already_recalculated_field_returns_immediately
    (db : FDatabase) (fuel fid : Nat) (st : RecState)
    (h : fid ∈ st.already) :
    recalculateDepthFirst db (fuel + 1) fid st
      = (some true, { st with entered := st.entered ++ [fid] }) := by
  unfold recalculateDepthFirst
  simp [h]

/-- Witness for the amended C2 at a concrete pre-populated set. -/
theorem already_recalculated_field_returns_immediately_witness :
    recalculateDepthFirst cyclicDb 4 5 { already := [5] }
      = (some true, { already := [5], entered := [5] }) :=
  already_recalculated_field_returns_immediately cyclicDb 3 5
    { already := [5] } (by decide)

/-- `formulas_need_update` is false exactly when every formula field carries
the current version tag. -/
theorem formulasNeedUpdate_eq_false_iff (db : FDatabase) :
    formulasNeedUpdate db = false
      ↔ ∀ f ∈ db.fields, f.isFormula = true →
          f.version = BASEROW_FORMULA_VERSION := by
  simp only [formulasNeedUpdate, List.any_eq_false]
  constructor
  · intro h f hf hform
    have := h f hf
    simp [hform] at this
    exact this
  · intro h f hf
    by_cases hform : f.isFormula = true
    · simp [hform, h f hf hform]
    · simp [Bool.eq_false_iff.mpr hform]

/-- After the version-stamping bulk update every formula field is current. -/
theorem formulasNeedUpdate_after_stamp (db : FDatabase) :
    formulasNeedUpdate
      ⟨db.fields.map (fun f =>
        if f.isFormula then { f with version := BASEROW_FORMULA_VERSION } else f)⟩
      = false := by
  rw [formulasNeedUpdate_eq_false_iff]
  intro f hf hform
  simp only [List.mem_map] at hf
  obtain ⟨g, _, hg⟩ := hf
  by_cases hgf : g.isFormula
  · rw [if_pos hgf] at hg
    rw [← hg]
  · rw [if_neg hgf] at hg
    rw [← hg] at hform
    exact absurd hform hgf

/-- Claim C4: after any completed run of the global recalculation entry
point, every formula field's version tag equals `BASEROW_FORMULA_VERSION`, so
a second run (with no schema changes in between) finds its out-of-date check
false, saves no field, does not touch the stored fields and performs no
re-typing work at all — whatever fuel it is given. -/
theorem second_recalculation_run_does_no_work
    (db : FDatabase) (fuel fuel2 : Nat) (r1 : RunResult)
    (h : recalculateFormulasAccordingToVersion db fuel = some r1) :
    (∀ f ∈ r1.db.fields, f.isFormula = true →
        f.version = BASEROW_FORMULA_VERSION)
    ∧ recalculateFormulasAccordingToVersion r1.db fuel2
        = some ⟨r1.db, 0, false⟩ := by
  have hstamp : formulasNeedUpdate r1.db = false := by
    unfold recalculateFormulasAccordingToVersion at h
    by_cases hneed : formulasNeedUpdate db
    · rw [if_pos hneed, if_pos hneed] at h
      cases hall : recalculateAllFormulaFields db fuel
          ((db.fields.filter (fun f => f.isFormula)).map (fun f => f.id)) {} with
      | none => rw [hall] at h; exact absurd h (by simp)
      | some st =>
        rw [hall] at h
        have hr : r1.db = ⟨db.fields.map (fun f =>
            if f.isFormula then { f with version := BASEROW_FORMULA_VERSION }
            else f)⟩ := by
          cases h; rfl
        rw [hr]
        exact formulasNeedUpdate_after_stamp db
    · rw [if_neg hneed] at h
      have hr : r1.db = db := by cases h; rfl
      rw [hr]
      exact Bool.eq_false_iff.mpr hneed
  refine ⟨(formulasNeedUpdate_eq_false_iff r1.db).mp hstamp, ?_⟩
  unfold recalculateFormulasAccordingToVersion
  rw [if_neg (by simp [hstamp])]

/-- A database with two out-of-date formula fields (an acyclic dependency
between them) and one non-formula field. -/
def staleDb : FDatabase :=
  ⟨[⟨1, true, 1, [2]⟩, ⟨2, true, 1, []⟩, ⟨3, false, 0, []⟩]⟩

/-- The stored fields after the first global recalculation run on
`staleDb`. -/
def stampedDb : FDatabase :=
  ⟨[⟨1, true, 2, [2]⟩, ⟨2, true, 2, []⟩, ⟨3, false, 0, []⟩]⟩

/-- Witness for C4: on `staleDb` the first run completes (saving both formula
fields) and the second run returns the stored fields unchanged with zero
saves and no update needed. -/
theorem second_recalculation_run_does_no_work_witness :
    recalculateFormulasAccordingToVersion stampedDb 10
      = some ⟨stampedDb, 0, false⟩ :=
  (second_recalculation_run_does_no_work staleDb 10 10 ⟨stampedDb, 2, true⟩
    (by decide)).2

/-- Claim C9: a table has at most one primary field: `create_field` called
with `primary=True` for a table that already contains a (live) field with the
primary flag set returns the `PrimaryFieldAlreadyExists` error — before any
row is created, so the stored rows are untouched (only the `.ok` branch
extends them). -/
theorem create_second_primary_field_rejected
    (env : CreateFieldEnv) (rows : List TFieldRow) (tableId : Nat)
    (typeName : String) (name : Option String) (newId : Nat) (r : TFieldRow)
    (hmem : r ∈ rows) (htable : r.tableId = tableId)
    (hprimary : r.primary = true) (hlive : r.trashed = false) :
    createField env rows true tableId typeName true name newId
      = .error .primaryFieldAlreadyExists := by
  have hex : rows.any
      (fun row => !row.trashed && row.tableId == tableId && row.primary) = true :=
    List.any_eq_true.mpr ⟨r, hmem, by simp [htable, hprimary, hlive]⟩
  unfold createField
  simp [hex]

/-- A sample environment and table for the C9 witness: table 1 already has a
primary field. -/
def sampleEnv : CreateFieldEnv := ⟨["text", "number"], 100, 255, ["id", "order"]⟩

def sampleRows : List TFieldRow :=
  [⟨1, 1, "Name", true, false⟩, ⟨2, 1, "Notes", false, false⟩]

/-- Witness for C9: creating a second primary text field on table 1 fails. -/
theorem create_second_primary_field_rejected_witness :
    createField sampleEnv sampleRows true 1 "text" true (some "Extra") 3
      = .error .primaryFieldAlreadyExists :=
  create_second_primary_field_rejected sampleEnv sampleRows 1 "text"
    (some "Extra") 3 ⟨1, 1, "Name", true, false⟩ (by decide) rfl rfl rfl

/-- Claim C10: with the default queryset, `get_field` answers
`FieldDoesNotExist` exactly when every stored field with the requested id is
trashed or sits under a trashed table, database or application (in
particular when no such field exists at all), and every such error carries
the very same message as the missing-id case — a trashed field is
indistinguishable from a nonexistent one at this interface.  Field ids are
assumed unique, as for database primary keys. -/
theorem trashed_field_indistinguishable_from_missing
    (fields : List FieldRow) (fieldId : Nat)
    (hnodup : (fields.map (fun f => f.id)).Nodup) :
    ((∃ msg, getField fields fieldId = .error (.fieldDoesNotExist msg)) ↔
      ∀ f ∈ fields, f.id = fieldId →
        (f.trashed = true ∨ f.ancestry.tableTrashed = true
          ∨ f.ancestry.databaseTrashed = true
          ∨ f.ancestry.applicationTrashed = true))
    ∧ (∀ msg, getField fields fieldId = .error (.fieldDoesNotExist msg) →
        msg = fieldDoesNotExistMessage fieldId) := by
  cases hfind : (fields.filter (fun f => !f.trashed)).find?
      (fun f => f.id == fieldId) with
  | none =>
    have hval : getField fields fieldId
        = .error (.fieldDoesNotExist (fieldDoesNotExistMessage fieldId)) := by
      unfold getField
      rw [hfind]
    rw [hval]
    refine ⟨⟨fun _ f hf hid => ?_, fun _ => ⟨_, rfl⟩⟩, fun msg h => by
      simp only [Except.error.injEq, GetFieldError.fieldDoesNotExist.injEq] at h
      exact h.symm⟩
    by_cases htr : f.trashed = true
    · exact Or.inl htr
    · exfalso
      have hmem : f ∈ fields.filter (fun f => !f.trashed) :=
        List.mem_filter.mpr ⟨hf, by simp [htr]⟩
      have := List.find?_eq_none.mp hfind f hmem
      simp [hid] at this
  | some field =>
    have hfieldid : field.id = fieldId := by
      have := List.find?_some hfind
      simpa using this
    have hfieldmem : field ∈ fields.filter (fun f => !f.trashed) :=
      List.mem_of_find?_eq_some hfind
    have hfieldin : field ∈ fields := (List.mem_filter.mp hfieldmem).1
    have hfieldlive : field.trashed = false := by
      have := (List.mem_filter.mp hfieldmem).2
      simpa using this
    by_cases hpar : itemHasATrashedParent field.ancestry true = true
    · have hval : getField fields fieldId
          = .error (.fieldDoesNotExist (fieldDoesNotExistMessage fieldId)) := by
        unfold getField
        rw [hfind]
        simp [hpar]
      rw [hval]
      refine ⟨⟨fun _ f hf hid => ?_, fun _ => ⟨_, rfl⟩⟩, fun msg h => by
        simp only [Except.error.injEq, GetFieldError.fieldDoesNotExist.injEq] at h
        exact h.symm⟩
      have hfeq : f = field :=
        List.inj_on_of_nodup_map hnodup hf hfieldin (by rw [hid, hfieldid])
      subst hfeq
      have hcopy := hpar
      unfold itemHasATrashedParent at hcopy
      rcases Bool.or_eq_true_iff.mp hcopy with h1 | h2
      · rcases Bool.or_eq_true_iff.mp h1 with h3 | h4
        · exact Or.inr (Or.inl (Bool.and_eq_true_iff.mp h3).2)
        · exact Or.inr (Or.inr (Or.inl h4))
      · exact Or.inr (Or.inr (Or.inr h2))
    · have hval : getField fields fieldId = .ok field := by
        unfold getField
        rw [hfind]
        simp [hpar]
      rw [hval]
      have hflags := hpar
      unfold itemHasATrashedParent at hflags
      simp only [Bool.true_and, Bool.or_eq_true, not_or, Bool.not_eq_true] at hflags
      refine ⟨⟨fun hex => ?_, fun hall => ?_⟩, fun msg h => by cases h⟩
      · obtain ⟨msg, hmsg⟩ := hex
        cases hmsg
      · exfalso
        rcases hall field hfieldin hfieldid with h | h | h | h
        · rw [hfieldlive] at h; cases h
        · rw [hflags.1.1] at h; cases h
        · rw [hflags.1.2] at h; cases h
        · rw [hflags.2] at h; cases h

/-- Claim C3: a validly-typed expression whose aggregate flag is set — here a
call to an aggregate-flagged function, the shape produced for an aggregate
formula's internal expression — compiles in insert mode (model instance
provided, `insert=True`) to the expression type's placeholder empty value,
with no join; the same expression compiled in single-row-update mode goes
through the generator and ends in `aggregate_wrapper`, i.e. an
`ExpressionWrapper(Subquery(...))` join-based subquery over
`objects_and_trash` of the model.  `hargs` states that compiling the argument
list raises no exception. -/
theorem aggregate_insert_placeholder_update_subquery
    (info : ExprInfo) (fdef : FuncDef) (args : List BExpr) (model : DModel)
    (inst : RowInstance) (dargs : List DExpr) (st2 : GenState)
    (hflag : info.aggregate = true) (hdef : fdef.aggregate = true)
    (hvalid : info.expressionType.isInvalid = false)
    (hargs : genVisitArgs ⟨model, some inst⟩ args {} = some (dargs, st2)) :
    baserowExpressionToInsertDjangoExpression (.funcCall info fdef args) model
        inst
      = info.expressionType.placeholderEmptyValue
    ∧ baserowExpressionToSingleRowUpdateDjangoExpression
        (.funcCall info fdef args) model inst
      = (aggregateWrapper (fdef.toDjango dargs) model.dbTable st2).1 := by
  constructor
  · simp [baserowExpressionToInsertDjangoExpression,
      baserowExpressionToDjangoExpression, BExpr.expressionType,
      BExpr.aggregate, BExpr.info, hvalid, hflag]
  · simp [baserowExpressionToSingleRowUpdateDjangoExpression,
      baserowExpressionToDjangoExpression, BExpr.expressionType,
      BExpr.aggregate, BExpr.info, hvalid, genVisit, hargs,
      FuncDef.toDjangoExpressionGivenArgs, hdef]

/-- A sample model, row instance and aggregate call for the C3 witness. -/
def sampleModel : DModel := .mk "database_table_1" []

def sampleInstance : RowInstance := ⟨[]⟩

def aggInfo : ExprInfo := { expressionType := numberType, aggregate := true }

def aggSumCall : BExpr := .funcCall aggInfo sampleAggDef [scalarIntArg]

/-- Witness for C3 at a concrete aggregate call: insert mode yields the
number type's placeholder empty value, single-row-update mode yields the
aggregate-wrapped subquery. -/
theorem aggregate_insert_placeholder_update_subquery_witness :
    baserowExpressionToInsertDjangoExpression aggSumCall sampleModel
        sampleInstance
      = numberType.placeholderEmptyValue
    ∧ baserowExpressionToSingleRowUpdateDjangoExpression aggSumCall sampleModel
        sampleInstance
      = (aggregateWrapper
          (sampleAggDef.toDjango [.valueWithOutput (.vInt 1) (.decimalField 50 0)])
          sampleModel.dbTable {}).1 :=
  aggregate_insert_placeholder_update_subquery aggInfo sampleAggDef
    [scalarIntArg] sampleModel sampleInstance
    [.valueWithOutput (.vInt 1) (.decimalField 50 0)] {} rfl rfl rfl rfl

/-- Claim C8: a compiled lookup field reference joins to the looked-up table
through a `FilteredRelation` whose condition requires the related rows to be
non-trashed and non-null (forcing an inner join); a lookup that traverses a
link field in the looked-up table produces two chained joins (both recorded
in `join_ids`), the join path being the chained `m2m__link` relation, with
the middle relation additionally filtered to non-trashed rows. -/
theorem lookup_join_filtered_non_trashed_non_null
    (g : Gen) (info1 info2 : ExprInfo) (st : GenState)
    (m2m target1 target2 link prim : String)
    (lookupTable linkTable : DModel) (targetF linkPrimF : DField)
    (r1 r2 : Option DModel)
    (hremote : getRemoteModel m2m g.model = some lookupTable)
    (hsplit1 : (pySplitDunder target1).length = 1)
    (htf : lookupTable.getField target1 = some (targetF, r1))
    (hsplit2 : pySplitDunder target2 = [link, prim])
    (hlink : getRemoteModel link lookupTable = some linkTable)
    (hprim : linkTable.getField prim = some (linkPrimF, r2)) :
    genVisit g (.fieldRef info1 m2m (some target1)) st
      = some (makeReferenceToModelField g
          ((("not_trashed_" ++ m2m).replace "__" "_") ++ "__" ++ target1)
          targetF true,
        { st with
          joinIds := (addJoinId st (m2m, lookupTable.dbTable)).joinIds,
          preAnnotations := dictSet st.preAnnotations
            (("not_trashed_" ++ m2m).replace "__" "_")
            ⟨m2m, [(m2m ++ "__trashed", false), (m2m ++ "__isnull", false)]⟩ })
    ∧ genVisit g (.fieldRef info2 m2m (some target2)) st
      = some (makeReferenceToModelField g
          ((("not_trashed_" ++ (m2m ++ "__" ++ link)).replace "__" "_")
            ++ "__" ++ prim)
          linkPrimF true,
        { st with
          joinIds := (addJoinId (addJoinId st (m2m, lookupTable.dbTable))
            (m2m ++ "__" ++ link, linkTable.dbTable)).joinIds,
          preAnnotations := dictSet st.preAnnotations
            (("not_trashed_" ++ (m2m ++ "__" ++ link)).replace "__" "_")
            ⟨m2m ++ "__" ++ link,
             [(m2m ++ "__" ++ link ++ "__trashed", false),
              (m2m ++ "__" ++ link ++ "__isnull", false),
              (m2m ++ "__trashed", false)]⟩ }) := by
  constructor
  · simp [genVisit, visitFieldReference, setupLookupExpression,
      setupAnnotationsAndJoins, hremote, hsplit1, htf, addJoinId]
  · simp [genVisit, visitFieldReference, setupLookupExpression,
      setupExtraJoinsToLinkedLookupTable, setupAnnotationsAndJoins,
      hremote, hsplit2, hlink, hprim, addJoinId]

/-- Sample models for the C8 witness: the current table joins through
`field_4` to a lookup table which holds a text column `field_9` and a link
field `field_6` to a third table whose primary column is `field_7`. -/
def sampleLinkTable : DModel := .mk "database_table_3" [("field_7", .textField, none)]

def sampleLookupTable : DModel :=
  .mk "database_table_2"
    [("field_9", .textField, none), ("field_6", .plainField "link", some sampleLinkTable)]

def sampleStartModel : DModel :=
  .mk "database_table_1" [("field_4", .plainField "m2m", some sampleLookupTable)]

def sampleGen : Gen := ⟨sampleStartModel, none⟩

/-- Witness for C8 on the sample models, for the simple lookup
`field_4 -> field_9` and the nested lookup `field_4 -> field_6__field_7`. -/
theorem lookup_join_filtered_non_trashed_non_null_witness :
    genVisit sampleGen
        (.fieldRef { expressionType := numberType } "field_4" (some "field_9")) {}
      = some (makeReferenceToModelField sampleGen
          ((("not_trashed_" ++ "field_4").replace "__" "_") ++ "__" ++ "field_9")
          .textField true,
        { preAnnotations := dictSet [] (("not_trashed_" ++ "field_4").replace "__" "_")
            ⟨"field_4",
             [("field_4" ++ "__trashed", false), ("field_4" ++ "__isnull", false)]⟩,
          joinIds := (addJoinId {} ("field_4", sampleLookupTable.dbTable)).joinIds })
    ∧ genVisit sampleGen
        (.fieldRef { expressionType := numberType } "field_4"
          (some "field_6__field_7")) {}
      = some (makeReferenceToModelField sampleGen
          ((("not_trashed_" ++ ("field_4" ++ "__" ++ "field_6")).replace "__" "_")
            ++ "__" ++ "field_7")
          .textField true,
        { preAnnotations := dictSet []
            (("not_trashed_" ++ ("field_4" ++ "__" ++ "field_6")).replace "__" "_")
            ⟨"field_4" ++ "__" ++ "field_6",
             [("field_4" ++ "__" ++ "field_6" ++ "__trashed", false),
              ("field_4" ++ "__" ++ "field_6" ++ "__isnull", false),
              ("field_4" ++ "__trashed", false)]⟩,
          joinIds := (addJoinId (addJoinId {} ("field_4", sampleLookupTable.dbTable))
            ("field_4" ++ "__" ++ "field_6", sampleLinkTable.dbTable)).joinIds }) := by
  have h := lookup_join_filtered_non_trashed_non_null sampleGen
    { expressionType := numberType } { expressionType := numberType } {}
    "field_4" "field_9" "field_6__field_7" "field_6" "field_7"
    sampleLookupTable sampleLinkTable .textField .textField none none
    rfl rfl rfl rfl rfl rfl
  exact h

/-- Sample rows for the C10 witness: field 7 exists but is trashed. -/
def sampleFieldRows : List FieldRow :=
  [⟨7, true, ⟨false, false, false⟩⟩, ⟨8, false, ⟨false, false, false⟩⟩]

/-- Witness for C10: looking up the trashed field 7 yields exactly the
missing-field error with the missing-field message. -/
theorem trashed_field_indistinguishable_from_missing_witness :
    getField sampleFieldRows 7
      = .error (.fieldDoesNotExist (fieldDoesNotExistMessage 7)) := by
  have h := trashed_field_indistinguishable_from_missing sampleFieldRows 7
    (by decide)
  obtain ⟨msg, hmsg⟩ := h.1.mpr (by decide)
  rwa [h.2 msg hmsg] at hmsg

end Baserow
